import Mathlib

/-!
Verification of the price-my-car service (src/main.py, src/test_main.py).

The embedding models Python strings as Lean `String` values (lists of
unicode scalar values), `str.lower` as a character-wise basic-latin
lowercasing, the `random.randint(-250, 250)` draw as an explicit integer
argument constrained by hypotheses, `ValueError` as `Except.error`, and the
FastAPI endpoint body as a pure function from the awaited extraction
outcome (and the jitter draw) to the HTTP response, instrumented with the
outbound calls it performs.
-/

namespace PriceMyCar

/-- Python str.lower, modelled character-wise with basic-latin lowercasing
applied to the string's list of characters. -/
def py_lower (s : String) : String := ⟨s.data.map Char.toLower⟩

/-- The static pricing table of get_car_price (src/main.py lines 43-47):
lowercase make to lowercase model to integer base price. -/
def known_prices : List (String × List (String × Int)) :=
  [ ("honda",  [("accord", 4750), ("civic", 3500)]),
    ("toyota", [("camry", 5200), ("corolla", 3800)]),
    ("ford",   [("focus", 3200), ("mustang", 8500)]) ]

/-- The nested membership test and index of src/main.py lines 51-52:
some base price when make_lower is a key and model_lower a key of the inner
table, none otherwise. -/
def lookup_base_price (make_lower model_lower : String) : Option Int :=
  (known_prices.lookup make_lower).bind (fun inner => inner.lookup model_lower)

/-- The ValueError message of src/main.py line 55, with the original-case
make and model interpolated. -/
def pricing_unavailable_detail (make model : String) : String :=
  "Pricing for make \x27" ++ make ++ "\x27 and model \x27" ++ model ++
    "\x27 is not available."

/-- get_car_price (src/main.py lines 38-55). The random.randint(-250, 250)
draw is modelled by the explicit jitter argument; raising ValueError is
modelled by Except.error carrying the message string. -/
def get_car_price (make model : String) (jitter : Int) : Except String Int :=
  let make_lower := py_lower make
  let model_lower := py_lower model
  match lookup_base_price make_lower model_lower with
  | some base_price => Except.ok (base_price + jitter)
  | none => Except.error (pricing_unavailable_detail make model)

/-- Basic-latin lowercasing leaves a character without an upper-case
basic-latin code point unchanged, so applying it twice is the same as
applying it once. -/
theorem char_toLower_toLower (c : Char) : c.toLower.toLower = c.toLower := by
  unfold Char.toLower
  by_cases h : c.toNat ≥ 65 ∧ c.toNat ≤ 90
  · rw [if_pos h]
    have hv : (c.toNat + 32).isValidChar := Or.inl (by omega)
    have ht : (Char.ofNat (c.toNat + 32)).toNat = c.toNat + 32 := by
      rw [Char.ofNat, dif_pos hv]
      simp [Char.ofNatAux, Char.toNat, UInt32.toNat, BitVec.toNat_ofNatLt]
    rw [if_neg]
    omega
  · rw [if_neg h, if_neg h]

/-- py_lower is idempotent. -/
theorem py_lower_idem (s : String) : py_lower (py_lower s) = py_lower s := by
  unfold py_lower
  congr 1
  rw [List.map_map]
  exact List.map_congr_left (fun c _ => char_toLower_toLower c)

/-- Outcome of awaiting extraction_chain.ainvoke in the handler
(src/main.py lines 89-104): the parsed dict's values at keys "make" and
"model" as read by extracted_info.get (an absent key and a JSON null both
give none), or an OutputParserException, or any other exception; each
exception carries its rendered text. -/
inductive ExtractionOutcome where
  | ok (make? : Option String) (model? : Option String)
  | parseError (cause : String)
  | otherError (cause : String)

/-- The outbound effects of one request: the awaited extraction call and
the price-estimator call (the only consumer of randomness). -/
inductive Event where
  | extractCall
  | priceCall
deriving DecidableEq

/-- The response model of src/main.py lines 28-31. -/
structure PricedCar where
  make : String
  model : String
  price : Int
deriving DecidableEq

/-- An HTTP response: a 200 with a PricedCar body, or an HTTPException
with a status code and a detail string. -/
inductive Response where
  | success (car : PricedCar)
  | httpError (status : Nat) (detail : String)
deriving DecidableEq

/-- The status code carried by a response. -/
def Response.status : Response → Nat
  | .success _ => 200
  | .httpError s _ => s

/-- The detail of src/main.py line 97. -/
def parse_error_detail : String :=
  "The server had trouble understanding the response from the AI model. Please try again."

/-- The detail of src/main.py line 103. -/
def internal_error_detail : String :=
  "An internal server error occurred. Please try again later."

/-- The detail of src/main.py line 112. -/
def empty_extraction_detail : String :=
  "Could not extract a valid make and model from the provided text. Please provide a more descriptive listing."

/-- Python truthiness of the Optional[str] values returned by
extracted_info.get: None and the empty string are falsy, every other
string is truthy. -/
def py_truthy : Option String → Bool
  | none => false
  | some s => s != ""

/-- The body of price_car_endpoint after the await (src/main.py lines
93-120), instrumented with the outbound calls it makes: the extraction
call has already happened (its outcome is the ext argument), and the
price-estimator call happens exactly on the path that reaches line 116.
Returns the event trace paired with the HTTP response. -/
def price_car_run (ext : ExtractionOutcome) (jitter : Int) :
    List Event × Response :=
  match ext with
  | .parseError _cause => ([Event.extractCall], .httpError 500 parse_error_detail)
  | .otherError _cause => ([Event.extractCall], .httpError 500 internal_error_detail)
  | .ok make? model? =>
    if !(py_truthy make?) || !(py_truthy model?) then
      ([Event.extractCall], .httpError 422 empty_extraction_detail)
    else
      let make := make?.getD ""
      let model := model?.getD ""
      match get_car_price make model jitter with
      | .ok price =>
          ([Event.extractCall, Event.priceCall], .success ⟨make, model, price⟩)
      | .error msg =>
          ([Event.extractCall, Event.priceCall], .httpError 404 msg)

/-- The HTTP response of price_car_endpoint for a given extraction outcome
and jitter draw. -/
def price_car_endpoint (ext : ExtractionOutcome) (jitter : Int) : Response :=
  (price_car_run ext jitter).2

/-- The request model of src/main.py lines 24-26. -/
structure CarListing where
  title : String
  description : String
deriving DecidableEq

/-- A raw request body: malformed JSON, or a JSON object whose required
text fields may each be missing. -/
inductive RawBody where
  | malformed
  | fields (title? : Option String) (description? : Option String)

/-- Modelled from the spec: the framework validation of the request body
against CarListing (section 4.4 step 1; performed by FastAPI before the
handler body runs, so not itself part of src/main.py). Malformed JSON or a
missing required field yields no listing. -/
def parse_listing : RawBody → Option CarListing
  | .malformed => none
  | .fields (some t) (some d) => some ⟨t, d⟩
  | .fields _ _ => none

/-- Modelled from the spec: the client-error detail produced by framework
validation (its exact text is framework-defined; only the status matters
to the spec). -/
def request_validation_detail : String :=
  "Request body failed CarListing schema validation."

/-- One whole request: framework validation first; only a validated body
reaches the handler, whose single awaited extraction call and possible
price call are traced by price_car_run. -/
def handle_request (body : RawBody) (ext : ExtractionOutcome) (jitter : Int) :
    List Event × Response :=
  match parse_listing body with
  | none => ([], .httpError 422 request_validation_detail)
  | some _listing => price_car_run ext jitter

/-- The module-level names bound by src/main.py. -/
def main_module_names : List String :=
  ["app", "CarListing", "PricedCar", "ExtractedCarInfo", "get_car_price",
   "create_extraction_chain", "extraction_chain", "price_car_endpoint"]

/-- The names src/test_main.py imports from the main module (line 5). -/
def test_main_imported_names : List String :=
  ["app", "get_extraction_chain"]

/-- The module-level bindings referenced inside the body of
price_car_endpoint (src/main.py lines 82-120). -/
def handler_referenced_globals : List String :=
  ["extraction_chain", "OutputParserException", "logging", "HTTPException",
   "get_car_price", "PricedCar"]

/-- A value returned by an association-list lookup is one of the stored
values. -/
theorem lookup_snd_mem {α β : Type} [BEq α] (l : List (α × β)) (k : α) (v : β)
    (h : l.lookup k = some v) : v ∈ l.map Prod.snd := by
  induction l with
  | nil => rw [List.lookup_nil] at h; exact Option.noConfusion h
  | cons p tl ih =>
    obtain ⟨a, b⟩ := p
    rw [List.lookup_cons] at h
    cases hk : k == a with
    | true => rw [hk] at h; simp at h; simp [h]
    | false => rw [hk] at h; simp at h; simp [ih h]

/-- Every base price stored in the pricing table is at least 3200. -/
theorem base_price_ge (a b : String) (bp : Int)
    (h : lookup_base_price a b = some bp) : 3200 ≤ bp := by
  unfold lookup_base_price at h
  cases h1 : (known_prices.lookup a) with
  | none => rw [h1] at h; simp at h
  | some inner =>
    rw [h1] at h
    rw [Option.some_bind] at h
    have hin := lookup_snd_mem _ _ _ h1
    have hbp := lookup_snd_mem _ _ _ h
    simp [known_prices] at hin
    rcases hin with hin | hin | hin <;> rw [hin] at hbp <;> simp at hbp <;>
      rcases hbp with hbp | hbp <;> rw [hbp] <;> decide

/-- When the lowercased pair is in the table, get_car_price returns the
base price plus the jitter. -/
theorem get_car_price_of_found (make model : String) (bp jitter : Int)
    (h : lookup_base_price (py_lower make) (py_lower model) = some bp) :
    get_car_price make model jitter = Except.ok (bp + jitter) := by
  simp [get_car_price, h]

/-- When the lowercased pair is not in the table, get_car_price fails with
the message built from the original-case strings. -/
theorem get_car_price_of_missing (make model : String) (jitter : Int)
    (h : lookup_base_price (py_lower make) (py_lower model) = none) :
    get_car_price make model jitter =
      Except.error (pricing_unavailable_detail make model) := by
  simp [get_car_price, h]

/-- A truthy optional string is a some of a non-empty string. -/
theorem py_truthy_iff (m : Option String) :
    py_truthy m = true ↔ ∃ s, m = some s ∧ s ≠ "" := by
  cases m with
  | none => simp [py_truthy]
  | some s => simp [py_truthy]

/-- On a truthy make and model, the handler body reaches the pricing call
and the trace records both outbound calls. -/
theorem price_car_run_truthy (make model : String) (jitter : Int)
    (hmk : make ≠ "") (hmd : model ≠ "") :
    price_car_run (.ok (some make) (some model)) jitter =
      match get_car_price make model jitter with
      | .ok price =>
          ([Event.extractCall, Event.priceCall], .success ⟨make, model, price⟩)
      | .error msg =>
          ([Event.extractCall, Event.priceCall], .httpError 404 msg) := by
  unfold price_car_run
  simp [py_truthy, hmk, hmd]

/-- C1: for every (make, model) pair present in the pricing table after
lowercasing, and every value random.randint(-250, 250) can draw,
get_car_price returns base_price + j with -250 ≤ j ≤ 250, a value in the
closed interval [base_price - 250, base_price + 250]. -/
theorem C1_price_within_jitter_band (make model : String) (bp j : Int)
    (hfound : lookup_base_price (py_lower make) (py_lower model) = some bp)
    (hlo : -250 ≤ j) (hhi : j ≤ 250) :
    get_car_price make model j = Except.ok (bp + j) ∧
      bp - 250 ≤ bp + j ∧ bp + j ≤ bp + 250 :=
  ⟨get_car_price_of_found make model bp j hfound, by omega, by omega⟩

/-- Witness for C1 at the table entry honda/accord with jitter 7. -/
theorem C1_price_within_jitter_band_witness :
    get_car_price "Honda" "Accord" 7 = Except.ok (4750 + 7) ∧
      (4750 : Int) - 250 ≤ 4750 + 7 ∧ (4750 : Int) + 7 ≤ 4750 + 250 :=
  C1_price_within_jitter_band "Honda" "Accord" 4750 7 (by decide) (by decide)
    (by decide)

/-- C4: a parse failure of the extraction pipeline yields 500 with one
fixed generic detail, any other failure yields 500 with the other fixed
generic detail; both responses are the same constants for every underlying
exception text, so the body never depends on (and in particular never
embeds) that text. -/
theorem C4_extraction_failure_500 (cause : String) (j : Int) :
    price_car_endpoint (.parseError cause) j =
      .httpError 500 parse_error_detail ∧
    price_car_endpoint (.otherError cause) j =
      .httpError 500 internal_error_detail :=
  ⟨rfl, rfl⟩

/-- C6: any pair whose lowercased form is missing from the table fails
with the single error kind, whose message carries the original-case
strings; no separate error kind exists for empty strings. -/
theorem C6_unknown_pair_fails (make model : String) (j : Int)
    (h : lookup_base_price (py_lower make) (py_lower model) = none) :
    get_car_price make model j =
      Except.error (pricing_unavailable_detail make model) :=
  get_car_price_of_missing make model j h

/-- Witness for C6 at the empty-string pair. -/
theorem C6_unknown_pair_fails_witness :
    get_car_price "" "" 0 = Except.error (pricing_unavailable_detail "" "") :=
  C6_unknown_pair_fails "" "" 0 (by decide)

/-- C2: whenever get_car_price fails for the extracted make and model, the
handler answers 404 and its detail is exactly the ValueError message built
from the original (non-lowercased) strings. -/
theorem C2_pricing_unavailable_404 (make model : String) (j : Int) (e : String)
    (hmk : make ≠ "") (hmd : model ≠ "")
    (hfail : get_car_price make model j = Except.error e) :
    price_car_endpoint (.ok (some make) (some model)) j =
      .httpError 404 (pricing_unavailable_detail make model) ∧
    e = pricing_unavailable_detail make model := by
  cases hl : lookup_base_price (py_lower make) (py_lower model) with
  | some bp =>
    rw [get_car_price_of_found make model bp j hl] at hfail
    exact absurd hfail (by simp)
  | none =>
    have he : e = pricing_unavailable_detail make model := by
      rw [get_car_price_of_missing make model j hl] at hfail
      exact (Except.error.inj hfail).symm
    refine ⟨?_, he⟩
    unfold price_car_endpoint
    rw [price_car_run_truthy make model j hmk hmd,
        get_car_price_of_missing make model j hl]

/-- Witness for C2 at the pair Tesla / Model S. -/
theorem C2_pricing_unavailable_404_witness :
    price_car_endpoint (.ok (some "Tesla") (some "Model S")) 0 =
      .httpError 404 (pricing_unavailable_detail "Tesla" "Model S") ∧
    pricing_unavailable_detail "Tesla" "Model S" =
      pricing_unavailable_detail "Tesla" "Model S" :=
  C2_pricing_unavailable_404 "Tesla" "Model S" 0
    (pricing_unavailable_detail "Tesla" "Model S") (by decide) (by decide) rfl

/-- C3: an extraction result whose make or model is absent or null (none)
or the empty string gets a 422 with the fixed message and the price
estimator is never invoked; a partially-null result is handled exactly
like a fully-null one. -/
theorem C3_empty_extraction_422 (make? model? : Option String) (j : Int)
    (h : (make? = none ∨ make? = some "") ∨
         (model? = none ∨ model? = some "")) :
    price_car_run (.ok make? model?) j =
      ([Event.extractCall], .httpError 422 empty_extraction_detail) := by
  have hfalse : py_truthy make? = false ∨ py_truthy model? = false := by
    rcases h with (h | h) | (h | h) <;> rw [h] <;> simp [py_truthy]
  rcases hfalse with h | h <;> simp [price_car_run, h]

/-- Witness for C3 at the partially-null result (make present, model
null). -/
theorem C3_empty_extraction_422_witness :
    price_car_run (.ok (some "Honda") none) 0 =
      ([Event.extractCall], .httpError 422 empty_extraction_detail) :=
  C3_empty_extraction_422 (some "Honda") none 0 (Or.inr (Or.inl rfl))

/-- C5: get_car_price is case-insensitive: the lowercased pair reads the
same table entry, a call succeeds exactly when the lowercased call
succeeds, and with jitters in range any two such results differ by at most
500. -/
theorem C5_case_insensitive (make model : String) (j1 j2 : Int)
    (h1 : -250 ≤ j1) (h2 : j1 ≤ 250) (h3 : -250 ≤ j2) (h4 : j2 ≤ 250) :
    lookup_base_price (py_lower (py_lower make)) (py_lower (py_lower model)) =
      lookup_base_price (py_lower make) (py_lower model) ∧
    ((∃ r, get_car_price make model j1 = Except.ok r) ↔
      (∃ r, get_car_price (py_lower make) (py_lower model) j2 = Except.ok r)) ∧
    (∀ r1 r2, get_car_price make model j1 = Except.ok r1 →
      get_car_price (py_lower make) (py_lower model) j2 = Except.ok r2 →
      r1 - r2 ≤ 500 ∧ r2 - r1 ≤ 500) := by
  have hkey : lookup_base_price (py_lower (py_lower make))
      (py_lower (py_lower model)) =
      lookup_base_price (py_lower make) (py_lower model) := by
    rw [py_lower_idem, py_lower_idem]
  refine ⟨hkey, ?_, ?_⟩
  · cases hl : lookup_base_price (py_lower make) (py_lower model) with
    | some bp =>
      have hfound1 := get_car_price_of_found make model bp j1 hl
      have hfound2 := get_car_price_of_found (py_lower make) (py_lower model)
        bp j2 (hkey.trans hl)
      exact ⟨fun _ => ⟨bp + j2, hfound2⟩, fun _ => ⟨bp + j1, hfound1⟩⟩
    | none =>
      have herr1 := get_car_price_of_missing make model j1 hl
      have herr2 := get_car_price_of_missing (py_lower make) (py_lower model)
        j2 (hkey.trans hl)
      constructor
      · rintro ⟨r, hr⟩; rw [herr1] at hr; exact Except.noConfusion hr
      · rintro ⟨r, hr⟩; rw [herr2] at hr; exact Except.noConfusion hr
  · intro r1 r2 hr1 hr2
    cases hl : lookup_base_price (py_lower make) (py_lower model) with
    | some bp =>
      rw [get_car_price_of_found make model bp j1 hl] at hr1
      rw [get_car_price_of_found (py_lower make) (py_lower model) bp j2
        (hkey.trans hl)] at hr2
      have e1 := Except.ok.inj hr1
      have e2 := Except.ok.inj hr2
      omega
    | none =>
      rw [get_car_price_of_missing make model j1 hl] at hr1
      exact Except.noConfusion hr1

/-- Witness for C5 at HONDA / Accord with extreme jitters. -/
theorem C5_case_insensitive_witness :
    lookup_base_price (py_lower (py_lower "HONDA"))
        (py_lower (py_lower "Accord")) =
      lookup_base_price (py_lower "HONDA") (py_lower "Accord") :=
  (C5_case_insensitive "HONDA" "Accord" 250 (-250) (by decide) (by decide)
    (by decide) (by decide)).1

/-- C7: on the success path the handler answers 200 with the extracted
make and model and price base + jitter; every base price is at least 3200
and the jitter at least -250, so the price is at least 2950, strictly
positive. -/
theorem C7_success_positive (make model : String) (bp j : Int)
    (hmk : make ≠ "") (hmd : model ≠ "")
    (hfound : lookup_base_price (py_lower make) (py_lower model) = some bp)
    (hlo : -250 ≤ j) (hhi : j ≤ 250) :
    price_car_endpoint (.ok (some make) (some model)) j =
      .success ⟨make, model, bp + j⟩ ∧
    (price_car_endpoint (.ok (some make) (some model)) j).status = 200 ∧
    2950 ≤ bp + j ∧ 0 < bp + j := by
  have hbase := base_price_ge _ _ _ hfound
  have hresp : price_car_endpoint (.ok (some make) (some model)) j =
      .success ⟨make, model, bp + j⟩ := by
    unfold price_car_endpoint
    rw [price_car_run_truthy make model j hmk hmd,
        get_car_price_of_found make model bp j hfound]
  exact ⟨hresp, by rw [hresp]; rfl, by omega, by omega⟩

/-- Witness for C7 at Honda / Accord with the lowest jitter. -/
theorem C7_success_positive_witness :
    price_car_endpoint (.ok (some "Honda") (some "Accord")) (-250) =
      .success ⟨"Honda", "Accord", 4750 + (-250)⟩ ∧
    (price_car_endpoint (.ok (some "Honda") (some "Accord")) (-250)).status
      = 200 ∧
    (2950 : Int) ≤ 4750 + (-250) ∧ (0 : Int) < 4750 + (-250) :=
  C7_success_positive "Honda" "Accord" 4750 (-250) (by decide) (by decide)
    (by decide) (by decide) (by decide)

/-- The handler's trace is either the lone extraction call, or the
extraction call followed by the price call, the latter exactly when
extraction succeeded with a truthy make and model. -/
theorem price_car_run_trace_cases (ext : ExtractionOutcome) (j : Int) :
    (price_car_run ext j).1 = [Event.extractCall] ∨
    ((price_car_run ext j).1 = [Event.extractCall, Event.priceCall] ∧
      ∃ mk md, ext = .ok (some mk) (some md) ∧ mk ≠ "" ∧ md ≠ "") := by
  cases ext with
  | parseError c => exact Or.inl rfl
  | otherError c => exact Or.inl rfl
  | ok make? model? =>
    by_cases h1 : py_truthy make? = true
    · by_cases h2 : py_truthy model? = true
      · obtain ⟨mk, hmk, hmkne⟩ := (py_truthy_iff make?).1 h1
        obtain ⟨md, hmd, hmdne⟩ := (py_truthy_iff model?).1 h2
        refine Or.inr ⟨?_, mk, md, by rw [hmk, hmd], hmkne, hmdne⟩
        cases hgc : get_car_price (make?.getD "") (model?.getD "") j with
        | ok price => simp [price_car_run, h1, h2, hgc]
        | error msg => simp [price_car_run, h1, h2, hgc]
      · exact Or.inl (by simp [price_car_run,
          Bool.eq_false_iff.2 ((fun hh => h2 hh) : py_truthy model? = true → False)])
    · exact Or.inl (by simp [price_car_run,
        Bool.eq_false_iff.2 ((fun hh => h1 hh) : py_truthy make? = true → False)])

/-- C9: per request, a body that fails framework validation terminates the
request with a client error and an empty outbound trace; a validated
request makes exactly one extraction call; and the price estimator runs
only after the single extraction call has succeeded with a truthy make and
model. -/
theorem C9_request_ordering (body : RawBody) (ext : ExtractionOutcome)
    (j : Int) :
    (parse_listing body = none →
      handle_request body ext j =
        ([], .httpError 422 request_validation_detail)) ∧
    (parse_listing body ≠ none →
      (handle_request body ext j).1.count Event.extractCall = 1) ∧
    (Event.priceCall ∈ (handle_request body ext j).1 →
      ∃ mk md, ext = .ok (some mk) (some md) ∧ mk ≠ "" ∧ md ≠ "" ∧
        (handle_request body ext j).1 =
          [Event.extractCall, Event.priceCall]) := by
  cases hp : parse_listing body with
  | none =>
    refine ⟨fun _ => by simp [handle_request, hp], fun hne => absurd rfl hne,
      fun hmem => ?_⟩
    rw [show handle_request body ext j =
      ([], .httpError 422 request_validation_detail) from
        by simp [handle_request, hp]] at hmem
    simp at hmem
  | some l =>
    have hreq : handle_request body ext j = price_car_run ext j := by
      simp [handle_request, hp]
    refine ⟨fun hn => Option.noConfusion hn, fun _ => ?_, ?_⟩
    · rw [hreq]
      rcases price_car_run_trace_cases ext j with hc | ⟨hc, _⟩ <;>
        rw [hc] <;> rfl
    · intro hmem
      rw [hreq] at hmem
      rcases price_car_run_trace_cases ext j with hc | ⟨hc, mk, md, hext, h1, h2⟩
      · rw [hc] at hmem; simp at hmem
      · exact ⟨mk, md, hext, h1, h2, by rw [hreq, hc]⟩

/-- Witness for C9 at a validated body and a successful extraction. -/
theorem C9_request_ordering_witness :
    (handle_request
        (.fields (some "Selling a 2007 Honda Accord") (some "a reliable car"))
        (.ok (some "Honda") (some "Accord")) 0).1.count Event.extractCall
      = 1 :=
  (C9_request_ordering
      (.fields (some "Selling a 2007 Honda Accord") (some "a reliable car"))
      (.ok (some "Honda") (some "Accord")) 0).2.1 (by decide)

/-- py_lower leaves a string made only of spaces unchanged. -/
theorem py_lower_of_spaces (s : String) (h : ∀ c ∈ s.data, c = ' ') :
    py_lower s = s := by
  obtain ⟨data⟩ := s
  unfold py_lower
  congr 1
  exact (List.map_congr_left (fun c hc => by rw [h c hc]; decide)).trans
    (List.map_id data)

/-- A non-empty string made only of spaces is not a make key of the
pricing table. -/
theorem space_string_lookup_none (s : String) (_hne : s ≠ "")
    (h : ∀ c ∈ s.data, c = ' ') :
    known_prices.lookup s = none := by
  have hh : s ≠ "honda" := by
    intro he
    have hm : 'h' ∈ s.data := by rw [he]; decide
    exact absurd (h _ hm) (by decide)
  have ht : s ≠ "toyota" := by
    intro he
    have hm : 't' ∈ s.data := by rw [he]; decide
    exact absurd (h _ hm) (by decide)
  have hf : s ≠ "ford" := by
    intro he
    have hm : 'f' ∈ s.data := by rw [he]; decide
    exact absurd (h _ hm) (by decide)
  have e1 : (s == "honda") = false := beq_eq_false_iff_ne.2 hh
  have e2 : (s == "toyota") = false := beq_eq_false_iff_ne.2 ht
  have e3 : (s == "ford") = false := beq_eq_false_iff_ne.2 hf
  simp [known_prices, List.lookup, e1, e2, e3]

/-- C10: a whitespace-only make and model are truthy under the handler's
emptiness check, so the request bypasses the 422 branch, reaches the price
estimator (the trace records the price call), fails the table lookup, and
yields a 404 whose detail embeds the whitespace strings verbatim. -/
theorem C10_whitespace_is_truthy (make model : String) (j : Int)
    (hmk : make ≠ "") (hmd : model ≠ "")
    (hmkw : ∀ c ∈ make.data, c = ' ') (_hmdw : ∀ c ∈ model.data, c = ' ') :
    price_car_run (.ok (some make) (some model)) j =
      ([Event.extractCall, Event.priceCall],
        .httpError 404 (pricing_unavailable_detail make model)) := by
  have hl : lookup_base_price (py_lower make) (py_lower model) = none := by
    rw [py_lower_of_spaces make hmkw]
    unfold lookup_base_price
    rw [space_string_lookup_none make hmk hmkw]
    rfl
  rw [price_car_run_truthy make model j hmk hmd,
      get_car_price_of_missing make model j hl]

/-- Witness for C10 at the single-space make and model. -/
theorem C10_whitespace_is_truthy_witness :
    price_car_run (.ok (some " ") (some " ")) 0 =
      ([Event.extractCall, Event.priceCall],
        .httpError 404 (pricing_unavailable_detail " " " ")) :=
  C10_whitespace_is_truthy " " " " 0 (by decide) (by decide) (by decide)
    (by decide)

/-- C8 evidence: the tests import and override a dependency named
get_extraction_chain, but src/main.py binds no such name, and the handler
body references the concrete module-level extraction_chain directly. -/
theorem C8_injection_not_implemented :
    "get_extraction_chain" ∈ test_main_imported_names ∧
    "get_extraction_chain" ∉ main_module_names ∧
    "extraction_chain" ∈ handler_referenced_globals := by
  decide

end PriceMyCar
